import Mathlib

/-!
# Verification of the AFK guard subsystem (`src/utils/afk-guard.js`)

Shallow embedding of the `ActivityTracker`, `SessionManager` and `AFKGuard`
classes of `src/utils/afk-guard.js`, together with theorems settling the
spec claims about them.

Modelling conventions:
* JavaScript millisecond timestamps (`Date.now()`) are `Int`; each operation
  that reads the clock takes an explicit `now` argument.
* `setTimeout` handles are modelled as the absolute deadline the callback is
  scheduled for (`Option Int`); `clearTimeout` sets the slot to `none`, and a
  callback firing consumes its slot.
* The DOM is a list of elements; an element reference held by a closure or a
  `Map` entry is its index in that list.  `typeof window === 'undefined'` is
  the `hasWindow` flag of the DOM state.
* `sensitiveDataBackup` is a JavaScript `Map`, i.e. an insertion-ordered
  association list with replace-on-existing-key semantics (`mapSet`).
* `generateElementId` builds `afk_tag_className_Date.now()_random`; the
  timestamp-plus-random suffix is modelled by a monotone counter `idCtr`
  (each call yields a fresh `stamp`), keeping the tag/className components.
* Event payloads (timestamps, durations) carried by `emit` are dropped;
  only the event names are tracked.
-/

/-- Events emitted by the guard classes (`this.emit(...)` occurrences),
payloads omitted. -/
inductive Evt where
  | trackingStarted
  | trackingStopped
  | activityDetected
  | inactivityWarning
  | inactivityTimeout
  | sessionLocked
  | sessionUnlocked
  | unlockFailed
  | memoryCleared
  | afkGuardStarted
  | afkGuardStopped
deriving DecidableEq, Repr

/-- `this.sensitivity` of `ActivityTracker`: the strings `'low'`, `'high'`;
`normal` also stands for any other string (the `switch` default branch). -/
inductive Sensitivity where
  | low
  | normal
  | high
deriving DecidableEq, Repr

/-- `this.unlockMethod` of `SessionManager`: `'click'`, `'password'`, `'os'`;
`other` stands for any other string (the `switch` default branch of
`validateUnlock` returns `true` for it). -/
inductive UnlockMethod where
  | click
  | password
  | os
  | other
deriving DecidableEq, Repr

/-- Credentials object passed to `unlockSession` / `validateUnlock`. -/
structure Cred where
  password : String
deriving DecidableEq, Repr

/-- A DOM element, as far as the guard reads or writes it.  `sels` lists the
indices (into `sensitiveSelectors`) of the sensitive selectors this element
matches; `attached` models `element.parentNode` being non-null;
`blankedClass` models membership of `afk-sensitive-blanked` in `classList`. -/
structure Element where
  tag : String
  className : String
  value : String
  innerHTML : String
  textContent : String
  attached : Bool
  blankedClass : Bool
  sels : List Nat
deriving DecidableEq, Repr, Inhabited

/-- The renderer document state the guard touches.  `bodyLocked` models the
`afk-session-locked` class on `document.body`; `lockScreenVisible` the lock
screen overlay. -/
structure Dom where
  elems : List Element
  hasWindow : Bool
  bodyLocked : Bool
  lockScreenVisible : Bool
deriving DecidableEq, Repr, Inhabited

/-- Key of a `sensitiveDataBackup` entry, mirroring
`generateElementId`: `afk_${tagName}_${className}_${Date.now()}_${random}`.
`stamp` models the timestamp-plus-random suffix, fresh on every call. -/
structure BackupKey where
  tag : String
  className : String
  stamp : Nat
deriving DecidableEq, Repr

/-- Value of a `sensitiveDataBackup` entry: the stored element reference and
the captured `originalContent` / `originalValue` / `originalText`. -/
structure Snapshot where
  elemIdx : Nat
  originalContent : String
  originalValue : String
  originalText : String
deriving DecidableEq, Repr

/-- State of a `SessionManager` instance.  `storedPassword` models the value
`getStoredPassword()` returns (`process.env.AFK_UNLOCK_PASSWORD || 'default'`,
constant over the life of the process).  `idCtr` is the freshness source of
`generateElementId` (see `BackupKey.stamp`). -/
structure SessionManager where
  unlockMethod : UnlockMethod
  storedPassword : String
  isLocked : Bool
  lockTime : Option Int
  backup : List (BackupKey × Snapshot)
  memCache : List (String × String)
  idCtr : Nat
deriving DecidableEq, Repr

/-- State of an `ActivityTracker` instance.  The two `setTimeout` slots
`this.timer` / `this.warningTimer` are modelled by the absolute deadlines
they are scheduled to fire at. -/
structure ActivityTracker where
  timeout : Int
  warningTime : Int
  sensitivity : Sensitivity
  enabled : Bool
  isTracking : Bool
  lastActivity : Int
  timerDeadline : Option Int
  warningDeadline : Option Int
deriving DecidableEq, Repr

/-- List lookup with the default element, modelling dereferencing a stored
element reference (`l.getD i default`). -/
def getE : List Element → Nat → Element
  | [], _ => default
  | e :: _, 0 => e
  | _ :: l, n + 1 => getE l n

/-- Replace the element a reference points at. -/
def Dom.setElem (d : Dom) (i : Nat) (e : Element) : Dom :=
  { d with elems := d.elems.set i e }

/-- JavaScript `Map.prototype.set`: replace in place if the key is present,
otherwise append (insertion order is preserved, as `Map` iteration uses it). -/
def mapSet (m : List (BackupKey × Snapshot)) (k : BackupKey) (v : Snapshot) :
    List (BackupKey × Snapshot) :=
  match m with
  | [] => [(k, v)]
  | (k', v') :: rest => if k' = k then (k, v) :: rest else (k', v') :: mapSet rest k v

/-- The `sensitiveSelectors` array of `blankSensitiveData`. -/
def sensitiveSelectors : List String :=
  ["[data-sensitive]", ".api-key", ".user-token", ".search-history",
   ".personal-data", "input[type=\"password\"]", ".sample-metadata", ".user-profile"]

/-- `document.querySelectorAll(selector s)` in document order: the indices of
the attached-document elements matching selector number `s`. -/
def selMatches (d : Dom) (s : Nat) : List Nat :=
  (List.range d.elems.length).filter (fun i => s ∈ (getE d.elems i).sels)

/-- The element references processed by one `blankSensitiveData` call: the
concatenation of the `querySelectorAll` results of the eight sensitive
selectors, in selector order then document order. -/
def matchedList (d : Dom) : List Nat :=
  (List.range sensitiveSelectors.length).flatMap (fun s => selMatches d s)

/-- The masked text written into inputs: `'••••••••'`. -/
def maskText : String := "••••••••"

/-- The masked markup written into non-input elements:
`'<span class="afk-blanked">••••••••</span>'`. -/
def maskSpan : String := "<span class=\"afk-blanked\">••••••••</span>"

/-- JavaScript `element.value || ''`: non-input elements have no `value`
property (undefined, hence `''`); empty input values also fall back to `''`,
which coincides with the value itself. -/
def jsValue (e : Element) : String :=
  if e.tag = "INPUT" then e.value else ""

/-- The per-element mutation of `blankSensitiveData`: write the placeholder
into `value` (inputs) or `innerHTML` (anything else; `textContent` is the
derived text of the written markup), and add `afk-sensitive-blanked`. -/
def maskElem (e : Element) : Element :=
  if e.tag = "INPUT" then { e with value := maskText, blankedClass := true }
  else { e with innerHTML := maskSpan, textContent := maskText, blankedClass := true }

/-- The key `generateElementId(element)` produces, given the current
freshness counter. -/
def mkKey (e : Element) (stamp : Nat) : BackupKey :=
  { tag := e.tag, className := e.className, stamp := stamp }

/-- The snapshot `blankSensitiveData` stores for one element. -/
def mkSnap (i : Nat) (e : Element) : Snapshot :=
  { elemIdx := i, originalContent := e.innerHTML, originalValue := jsValue e,
    originalText := e.textContent }

/-- One iteration of the `elements.forEach` body of `blankSensitiveData`:
snapshot the element into the backup map under a fresh id, then mask it. -/
def blankOne (d : Dom) (sm : SessionManager) (i : Nat) : Dom × SessionManager :=
  let e := getE d.elems i
  ( d.setElem i (maskElem e),
    { sm with backup := mapSet sm.backup (mkKey e sm.idCtr) (mkSnap i e),
              idCtr := sm.idCtr + 1 } )

/-- The two nested `forEach` loops of `blankSensitiveData`, flattened over
the concatenated selector matches. -/
def blankFold (d : Dom) (sm : SessionManager) (ms : List Nat) : Dom × SessionManager :=
  ms.foldl (fun p i => blankOne p.1 p.2 i) (d, sm)

/-- `SessionManager.blankSensitiveData` (lines 406-447): no-op outside a
window context; otherwise snapshot-and-mask every matched element and add the
`afk-session-locked` class to the body. -/
def blankSensitiveData (d : Dom) (sm : SessionManager) : Dom × SessionManager :=
  if d.hasWindow = false then (d, sm)
  else
    let p := blankFold d sm (matchedList d)
    ({ p.1 with bodyLocked := true }, p.2)

/-- One iteration of the `forEach` body of `restoreSensitiveData`: if the
stored element reference is still attached, write the captured content back
and drop the `afk-sensitive-blanked` class; otherwise skip the entry. -/
def restoreOne (d : Dom) (snap : Snapshot) : Dom :=
  let e := getE d.elems snap.elemIdx
  if e.attached then
    let e' :=
      if e.tag = "INPUT" then { e with value := snap.originalValue, blankedClass := false }
      else { e with innerHTML := snap.originalContent, textContent := snap.originalText,
                    blankedClass := false }
    d.setElem snap.elemIdx e'
  else d

/-- The `forEach` loop of `restoreSensitiveData`, in `Map` insertion order. -/
def restoreFold (d : Dom) (bs : List (BackupKey × Snapshot)) : Dom :=
  bs.foldl (fun dd p => restoreOne dd p.2) d

/-- `SessionManager.restoreSensitiveData` (lines 452-476): no-op outside a
window context; otherwise replay every backup entry in insertion order, clear
the backup map, and remove the body class. -/
def restoreSensitiveData (d : Dom) (sm : SessionManager) : Dom × SessionManager :=
  if d.hasWindow = false then (d, sm)
  else
    ({ restoreFold d sm.backup with bodyLocked := false }, { sm with backup := [] })

/-- `SessionManager.clearMemoryCache` (memory cache part; the
sessionStorage / global-cache sweeps touch renderer globals outside this
model). -/
def clearMemoryCache (sm : SessionManager) : SessionManager × List Evt :=
  ({ sm with memCache := [] }, [Evt.memoryCleared])

/-- `SessionManager.showLockScreen`. -/
def showLockScreen (d : Dom) : Dom :=
  if d.hasWindow then { d with lockScreenVisible := true } else d

/-- `SessionManager.hideLockScreen`. -/
def hideLockScreen (d : Dom) : Dom :=
  if d.hasWindow then { d with lockScreenVisible := false } else d

/-- `SessionManager.lockSession` (lines 297-318): early-return when already
locked; otherwise set the lock flag and time, blank sensitive data, clear the
memory cache, show the lock screen, emit `session-locked`. -/
def lockSession (d : Dom) (sm : SessionManager) (now : Int) :
    Dom × SessionManager × List Evt :=
  if sm.isLocked then (d, sm, [])
  else
    let sm1 := { sm with isLocked := true, lockTime := some now }
    let p := blankSensitiveData d sm1
    let q := clearMemoryCache p.2
    (showLockScreen p.1, q.1, q.2 ++ [Evt.sessionLocked])

/-- `SessionManager.validateUnlock` (lines 368-384).  `credentials &&
credentials.password === this.getStoredPassword()` is falsy on `null`
credentials; `validateOSAuth` is the placeholder that always resolves
`true`; the `switch` default also returns `true`. -/
def validateUnlock (sm : SessionManager) (cred : Option Cred) : Bool :=
  match sm.unlockMethod with
  | UnlockMethod.click => true
  | UnlockMethod.password =>
      match cred with
      | none => false
      | some c => c.password == sm.storedPassword
  | UnlockMethod.os => true
  | UnlockMethod.other => true

/-- `SessionManager.unlockSession` (lines 323-356): `true` immediately when
not locked; on failed validation emit `unlock-failed` and return `false`
with the state untouched; on success clear the lock flag, restore sensitive
data, hide the lock screen and emit `session-unlocked`. -/
def unlockSession (d : Dom) (sm : SessionManager) (cred : Option Cred) :
    Dom × SessionManager × List Evt × Bool :=
  if sm.isLocked = false then (d, sm, [], true)
  else if validateUnlock sm cred = false then (d, sm, [Evt.unlockFailed], false)
  else
    let p := restoreSensitiveData d { sm with isLocked := false }
    (hideLockScreen p.1, p.2, [Evt.sessionUnlocked], true)

/-- The `SessionManager` constructor (lines 282-292) with the unlock method
resolved from options/environment and the stored password fixed for the
process. -/
def initSessionManager (m : UnlockMethod) (pw : String) : SessionManager :=
  { unlockMethod := m, storedPassword := pw, isLocked := false, lockTime := none,
    backup := [], memCache := [], idCtr := 0 }

/-- Constructor options of `ActivityTracker` (`options` object; a missing
field is `undefined`). -/
structure TrackerOptions where
  timeout : Option Int := none
  warningTime : Option Int := none
  sensitivity : Option Sensitivity := none
  enabled : Option Bool := none
deriving Repr

/-- JavaScript `x || d` on a possibly-undefined number: `undefined` and `0`
are falsy and yield the default. -/
def jsOrInt (x : Option Int) (d : Int) : Int :=
  match x with
  | none => d
  | some v => if v = 0 then d else v

/-- The `ActivityTracker` constructor (lines 11-29), with the
`AFK_TIMEOUT_MINUTES` / `AFK_WARNING_MINUTES` / `AFK_ENABLED` environment
variables unset (so the `parseInt(...)` branches are `NaN`, falsy, and the
literal defaults apply).  `now` is `Date.now()` at construction. -/
def mkTracker (opts : TrackerOptions) (now : Int) : ActivityTracker :=
  { timeout := jsOrInt opts.timeout (10 * 60 * 1000),
    warningTime := jsOrInt opts.warningTime (2 * 60 * 1000),
    sensitivity := opts.sensitivity.getD Sensitivity.normal,
    enabled := opts.enabled != some false,
    isTracking := false,
    lastActivity := now,
    timerDeadline := none,
    warningDeadline := none }

/-- `ActivityTracker.getActivityEvents` (lines 95-106). -/
def getActivityEvents (s : Sensitivity) : List String :=
  match s with
  | Sensitivity.low => ["mousedown", "keydown", "touchstart"]
  | Sensitivity.high =>
      ["mousedown", "mousemove", "keydown", "scroll", "touchstart",
       "mouseup", "keyup", "wheel", "touchend", "touchmove"]
  | Sensitivity.normal => ["mousedown", "mousemove", "keydown", "scroll", "touchstart"]

/-- The distinct renderer-side sources `setupRendererListeners` (lines 62-78)
wires into `handleActivity`: one DOM listener per `getActivityEvents` entry,
plus — at every sensitivity — the visibility-change path
(`handleVisibilityChange` calls `handleActivity` when the page becomes
visible), the focus-change path (`handleFocusChange` calls `handleActivity`
when focused) and the audio-monitoring path of `setupAudioMonitoring`
(lines 111-122: `play`/`pause`/`timeupdate` listeners and a 5s interval, all
reaching `handleActivity` through `checkAudioActivity` while media plays). -/
inductive PulseSource where
  | domEvent (name : String)
  | visibilityVisible
  | focusGain
  | audioPlayback
deriving DecidableEq, Repr

/-- The pulse sources registered by `setupRendererListeners` for a given
sensitivity. -/
def rendererPulseSources (s : Sensitivity) : List PulseSource :=
  (getActivityEvents s).map PulseSource.domEvent
    ++ [PulseSource.visibilityVisible, PulseSource.focusGain, PulseSource.audioPlayback]

/-- `ActivityTracker.resetTimer` (lines 195-218): early-return when not
tracking; otherwise clear both `setTimeout` slots and re-arm them, the
warning at `now + (timeout - warningTime)` and the expiry at
`now + timeout`. -/
def resetTimer (t : ActivityTracker) (now : Int) : ActivityTracker :=
  if t.isTracking = false then t
  else
    { t with warningDeadline := some (now + (t.timeout - t.warningTime)),
             timerDeadline := some (now + t.timeout) }

/-- `ActivityTracker.startTracking` (lines 35-57): early-return when disabled
or already tracking; otherwise mark tracking, stamp `lastActivity`, arm the
timers via `resetTimer`, emit `tracking-started`.  (The listener
registration targets the DOM/ipc environment; the `options` merge is the
identity for the no-options calls modelled here.) -/
def startTracking (t : ActivityTracker) (now : Int) : ActivityTracker × List Evt :=
  if t.enabled = false ∨ t.isTracking then (t, [])
  else
    (resetTimer { t with isTracking := true, lastActivity := now } now,
     [Evt.trackingStarted])

/-- `ActivityTracker.handleActivity` (lines 127-145): ignore when not
tracking; debounce events within 100ms of `lastActivity`; otherwise stamp
`lastActivity`, re-arm the timers and emit `activity-detected`. -/
def handleActivity (t : ActivityTracker) (now : Int) : ActivityTracker × List Evt :=
  if t.isTracking = false then (t, [])
  else if now - t.lastActivity < 100 then (t, [])
  else
    (resetTimer { t with lastActivity := now } now, [Evt.activityDetected])

/-- `ActivityTracker.stopTracking` (lines 223-264): early-return when not
tracking; otherwise clear the tracking flag and both timer slots, emit
`tracking-stopped`. -/
def stopTracking (t : ActivityTracker) : ActivityTracker × List Evt :=
  if t.isTracking = false then (t, [])
  else
    ({ t with isTracking := false, timerDeadline := none, warningDeadline := none },
     [Evt.trackingStopped])

/-- The `this.timer` `setTimeout` callback reaching its deadline (line
215-217): the slot is consumed and `inactivity-timeout` is emitted. -/
def fireTimeout (t : ActivityTracker) : ActivityTracker × List Evt :=
  ({ t with timerDeadline := none }, [Evt.inactivityTimeout])

/-- The `this.warningTimer` `setTimeout` callback reaching its deadline
(lines 207-212): the slot is consumed and `inactivity-warning` is emitted. -/
def fireWarning (t : ActivityTracker) : ActivityTracker × List Evt :=
  ({ t with warningDeadline := none }, [Evt.inactivityWarning])

/-- State of an `AFKGuard` instance: the two owned components, the shared
renderer document, and the guard-level `enabled` flag. -/
structure AFKGuard where
  tracker : ActivityTracker
  session : SessionManager
  dom : Dom
  enabled : Bool
deriving DecidableEq, Repr

/-- The inactivity timeout firing inside an `AFKGuard` (lines 664-670 of
`setupEventForwarding`): the tracker emits `inactivity-timeout`; if the
guard is enabled the handler calls `lockSession`, whose `session-locked`
event in turn makes the forwarding handler (lines 681-684) stop the
tracker. -/
def guardTimeoutFire (g : AFKGuard) (now : Int) : AFKGuard × List Evt :=
  let tp := fireTimeout g.tracker
  if g.enabled then
    let lp := lockSession g.dom g.session now
    if Evt.sessionLocked ∈ lp.2.2 then
      let sp := stopTracking tp.1
      ({ tracker := sp.1, session := lp.2.1, dom := lp.1, enabled := g.enabled },
       tp.2 ++ lp.2.2 ++ sp.2)
    else
      ({ tracker := tp.1, session := lp.2.1, dom := lp.1, enabled := g.enabled },
       tp.2 ++ lp.2.2)
  else ({ g with tracker := tp.1 }, tp.2)

/-- An activity pulse reaching an `AFKGuard`'s tracker: the
`activity-detected` forwarding handler (lines 676-678) only re-emits, so
the effect is `handleActivity` on the tracker. -/
def guardPulse (g : AFKGuard) (now : Int) : AFKGuard × List Evt :=
  let hp := handleActivity g.tracker now
  ({ g with tracker := hp.1 }, hp.2)

/-- An unlock request through an `AFKGuard`: `unlockSession` runs, and the
`session-unlocked` forwarding handler (lines 686-691) restarts the tracker
when the guard is enabled. -/
def guardUnlock (g : AFKGuard) (cred : Option Cred) (now : Int) :
    AFKGuard × List Evt × Bool :=
  let up := unlockSession g.dom g.session cred
  let g1 : AFKGuard :=
    { tracker := g.tracker, session := up.2.1, dom := up.1, enabled := g.enabled }
  if Evt.sessionUnlocked ∈ up.2.2.1 ∧ g.enabled then
    let sp := startTracking g1.tracker now
    ({ g1 with tracker := sp.1 }, up.2.2.1 ++ sp.2, up.2.2.2)
  else (g1, up.2.2.1, up.2.2.2)

/-- `AFKGuard.stop` (lines 711-717): stop the tracker; if the session is
locked, call `unlockSession()` — with no credentials — through the event
forwarding; emit `afk-guard-stopped`. -/
def guardStop (g : AFKGuard) (now : Int) : AFKGuard × List Evt :=
  let sp := stopTracking g.tracker
  let g1 : AFKGuard := { g with tracker := sp.1 }
  if g1.session.isLocked then
    let up := guardUnlock g1 none now
    (up.1, sp.2 ++ up.2.1 ++ [Evt.afkGuardStopped])
  else (g1, sp.2 ++ [Evt.afkGuardStopped])

/-- The `ActivityEvent.kind` taxonomy used by the spec's sensitivity-filter
sentence. -/
inductive EventKind where
  | pointerDown
  | keyDown
  | externalReport
  | pointerMove
  | scroll
  | pointerUp
  | keyUp
  | wheel
  | mediaPlayback
deriving DecidableEq, Repr

/-- The sensitivity filter exactly as the spec claim states it (for
comparison with the code-side `rendererPulseSources`): Low enables only
Pointer-down, Key-down and ExternalReport; Normal adds Pointer-move and
Scroll; High adds Pointer-up, Key-up, Wheel and MediaPlayback. -/
def specEnabled : Sensitivity → EventKind → Bool
  | _, EventKind.pointerDown => true
  | _, EventKind.keyDown => true
  | _, EventKind.externalReport => true
  | Sensitivity.normal, EventKind.pointerMove => true
  | Sensitivity.normal, EventKind.scroll => true
  | Sensitivity.high, EventKind.pointerMove => true
  | Sensitivity.high, EventKind.scroll => true
  | Sensitivity.high, EventKind.pointerUp => true
  | Sensitivity.high, EventKind.keyUp => true
  | Sensitivity.high, EventKind.wheel => true
  | Sensitivity.high, EventKind.mediaPlayback => true
  | _, _ => false

/-- One lock/unlock operation on a `SessionManager` (claim C1's alphabet). -/
inductive SMOp where
  | lock (now : Int)
  | unlock (cred : Option Cred)
deriving Repr

/-- Apply one operation to the shared document and session state, discarding
events and return value. -/
def applySMOp (p : Dom × SessionManager) (op : SMOp) : Dom × SessionManager :=
  match op with
  | SMOp.lock now =>
      let r := lockSession p.1 p.2 now
      (r.1, r.2.1)
  | SMOp.unlock cred =>
      let r := unlockSession p.1 p.2 cred
      (r.1, r.2.1)

/-- Run a sequence of lock/unlock operations. -/
def runSMOps (p : Dom × SessionManager) (ops : List SMOp) : Dom × SessionManager :=
  ops.foldl applySMOp p

/-- The inductive invariant for claim C1: an unlocked session has an empty
vault, and outside a window context the vault is always empty (blanking is a
no-op there). -/
def smInv (p : Dom × SessionManager) : Prop :=
  (p.2.isLocked = false → p.2.backup = []) ∧ (p.1.hasWindow = false → p.2.backup = [])

/-- The backup entries one `blankSensitiveData` call appends for the match
list `ms`, starting from freshness counter `k`: each matched element is
snapshotted from the pre-blank document `d`. -/
def blankEntries (d : Dom) : Nat → List Nat → List (BackupKey × Snapshot)
  | _, [] => []
  | k, i :: ms =>
      (mkKey (getE d.elems i) k, mkSnap i (getE d.elems i)) :: blankEntries d (k + 1) ms

/-- The user-visible content of an element: its `value`, `innerHTML` and
`textContent` (the fields `blankSensitiveData` masks and
`restoreSensitiveData` rewrites). -/
def contentOf (e : Element) : String × String × String :=
  (e.value, e.innerHTML, e.textContent)

/-- A sample sensitive element (matches selector 1, `.api-key`). -/
def sampleElem : Element :=
  { tag := "DIV", className := "api-key", value := "", innerHTML := "<b>K</b>",
    textContent := "K", attached := true, blankedClass := false, sels := [1] }

/-- A sample renderer document holding one sensitive element. -/
def sampleDom : Dom :=
  { elems := [sampleElem], hasWindow := true, bodyLocked := false,
    lockScreenVisible := false }

/-- A locked password-method session with the default stored password. -/
def lockedSM : SessionManager :=
  { unlockMethod := UnlockMethod.password, storedPassword := "default",
    isLocked := true, lockTime := some 0, backup := [], memCache := [], idCtr := 0 }

/-- A locked click-method session. -/
def lockedClickSM : SessionManager :=
  { unlockMethod := UnlockMethod.click, storedPassword := "default",
    isLocked := true, lockTime := some 0, backup := [], memCache := [], idCtr := 0 }

/-- A tracker that is currently tracking with the default durations. -/
def sampleTracker : ActivityTracker :=
  { timeout := 600000, warningTime := 120000, sensitivity := Sensitivity.normal,
    enabled := true, isTracking := true, lastActivity := 0,
    timerDeadline := some 600000, warningDeadline := some 480000 }

/-- A low-sensitivity tracker that is currently tracking. -/
def trackerLow : ActivityTracker :=
  { sampleTracker with sensitivity := Sensitivity.low }

/-- A stopped tracker (state after `stopTracking`). -/
def stoppedTracker : ActivityTracker :=
  { sampleTracker with
      isTracking := false
      timerDeadline := none
      warningDeadline := none }

/-- A guard whose session is locked with the password method. -/
def lockedGuardPw : AFKGuard :=
  { tracker := stoppedTracker, session := lockedSM, dom := sampleDom, enabled := true }

/-- A guard whose session is locked with the click method. -/
def lockedGuardClick : AFKGuard :=
  { lockedGuardPw with session := lockedClickSM }

/-- A running, unlocked guard. -/
def runningGuard : AFKGuard :=
  { tracker := sampleTracker,
    session := initSessionManager UnlockMethod.click "default",
    dom := sampleDom, enabled := true }

/-- Constructor options with `warningTime >= timeout` (the configuration the
spec says must be rejected). -/
def badOpts : TrackerOptions :=
  { timeout := some 5000, warningTime := some 10000 }

/-- A wrong credential for the sample sessions. -/
def wrongCred : Cred := { password := "wrong" }

/-- The correct credential for the sample sessions. -/
def goodCred : Cred := { password := "default" }

/-- A document holding a single protected region (a `.api-key` div) with
arbitrary original content `c`. -/
def doubleBlankDom (c : String) : Dom :=
  { elems := [{ tag := "DIV", className := "api-key", value := "", innerHTML := c,
                textContent := c, attached := true, blankedClass := false,
                sels := [1] }],
    hasWindow := true, bodyLocked := false, lockScreenVisible := false }

/-- A fresh session manager for the double-blank scenario. -/
def doubleBlankSM : SessionManager := initSessionManager UnlockMethod.click "default"

/-- A document holding a password input that also carries the `api-key`
class: the element matches two of the sensitive selectors (`.api-key`,
number 1, and `input[type="password"]`, number 5), so a single
`blankSensitiveData` call processes it twice. -/
def dupMatchDom : Dom :=
  { elems := [{ tag := "INPUT", className := "api-key", value := "hunter2",
                innerHTML := "", textContent := "", attached := true,
                blankedClass := false, sels := [1, 5] }],
    hasWindow := true, bodyLocked := false, lockScreenVisible := false }

/-! ## Basic lemmas about the embedding -/

theorem getE_set_self (l : List Element) (i : Nat) (e : Element) (h : i < l.length) :
    getE (l.set i e) i = e := by
  induction l generalizing i with
  | nil => simp at h
  | cons a l ih =>
      cases i with
      | zero => rfl
      | succ n => exact ih n (by simpa using h)

theorem getE_set_ne (l : List Element) (i j : Nat) (e : Element) (h : i ≠ j) :
    getE (l.set i e) j = getE l j := by
  induction l generalizing i j with
  | nil => rfl
  | cons a l ih =>
      cases i with
      | zero =>
          cases j with
          | zero => exact absurd rfl h
          | succ m => rfl
      | succ n =>
          cases j with
          | zero => rfl
          | succ m => exact ih n m (fun hh => h (by rw [hh]))

theorem maskElem_attached (e : Element) : (maskElem e).attached = e.attached := by
  by_cases h : e.tag = "INPUT" <;> simp [maskElem, h]

theorem maskElem_tag (e : Element) : (maskElem e).tag = e.tag := by
  by_cases h : e.tag = "INPUT" <;> simp [maskElem, h]

theorem stopTracking_not_tracking (t : ActivityTracker) :
    (stopTracking t).1.isTracking = false := by
  by_cases h : t.isTracking = false <;> simp [stopTracking, h]

theorem unlockSession_invalid (d : Dom) (sm : SessionManager) (cred : Option Cred)
    (hl : sm.isLocked = true) (hv : validateUnlock sm cred = false) :
    unlockSession d sm cred = (d, sm, [Evt.unlockFailed], false) := by
  simp [unlockSession, hl, hv]

theorem unlockSession_valid_unlocks (d : Dom) (sm : SessionManager) (cred : Option Cred)
    (hl : sm.isLocked = true) (hv : validateUnlock sm cred = true) :
    (unlockSession d sm cred).2.2.2 = true ∧
    (unlockSession d sm cred).2.1.isLocked = false ∧
    Evt.sessionUnlocked ∈ (unlockSession d sm cred).2.2.1 := by
  by_cases hw : d.hasWindow = false <;>
    simp [unlockSession, restoreSensitiveData, hl, hv, hw]

/-! ## C5: failed unlock is atomic -/

/-- C5: on a locked session, an unlock attempt whose credential validation
fails leaves the guard state `Locked` and the vault (`sensitiveDataBackup`)
unchanged — indeed the whole document and session state are untouched —
emits `unlock-failed`, and reports `false` to the caller. -/
theorem failed_unlock_atomic (d : Dom) (sm : SessionManager) (cred : Option Cred)
    (hl : sm.isLocked = true) (hv : validateUnlock sm cred = false) :
    unlockSession d sm cred = (d, sm, [Evt.unlockFailed], false) :=
  unlockSession_invalid d sm cred hl hv

/-- Witness for C5: a locked password session rejects null credentials and
is left untouched. -/
theorem failed_unlock_atomic_witness :
    lockedSM.isLocked = true ∧ validateUnlock lockedSM none = false ∧
    unlockSession sampleDom lockedSM none = (sampleDom, lockedSM, [Evt.unlockFailed], false) :=
  ⟨rfl, rfl, failed_unlock_atomic sampleDom lockedSM none rfl rfl⟩

/-! ## C7: debounce contract -/

/-- C7: after `handleActivity` emits a pulse at time `t0`, a further call
within 100ms is accepted but is a complete no-op: it neither updates
`lastActivity`, nor re-arms the timers, nor emits `activity-detected`. -/
theorem debounce_no_pulse (t : ActivityTracker) (t0 now : Int)
    (ht : t.isTracking = true)
    (hp : Evt.activityDetected ∈ (handleActivity t t0).2)
    (hd : now - t0 < 100) :
    handleActivity (handleActivity t t0).1 now = ((handleActivity t t0).1, []) := by
  by_cases hdb : t0 - t.lastActivity < 100
  · exfalso
    simp [handleActivity, ht, hdb] at hp
  · simp [handleActivity, ht, hdb, resetTimer, hd]

/-- Witness for C7: a pulse at 200 followed by an observe at 250. -/
theorem debounce_no_pulse_witness :
    sampleTracker.isTracking = true ∧
    Evt.activityDetected ∈ (handleActivity sampleTracker 200).2 ∧
    (250 : Int) - 200 < 100 ∧
    handleActivity (handleActivity sampleTracker 200).1 250 =
      ((handleActivity sampleTracker 200).1, []) :=
  ⟨rfl, by decide, by decide,
   debounce_no_pulse sampleTracker 200 250 rfl (by decide) (by decide)⟩

/-! ## C3: configuration validation at start -/

/-- C3 counterexample: with `timeout = 5000` and `warningTime = 10000`
(`warningLead >= timeout`, which the claim says must fail with
`InvalidConfiguration`), construction plus `startTracking` performs no
validation at all: it succeeds, emits `tracking-started`, and arms the
deadlines — the warning one in the past. -/
theorem start_no_validation_counterexample :
    (startTracking (mkTracker badOpts 0) 0).2 = [Evt.trackingStarted] ∧
    (startTracking (mkTracker badOpts 0) 0).1.isTracking = true ∧
    (startTracking (mkTracker badOpts 0) 0).1.warningDeadline = some (-5000) ∧
    (startTracking (mkTracker badOpts 0) 0).1.timerDeadline = some 5000 := by
  decide

/-- C3 amended: `startTracking` never validates the durations; whenever the
tracker is enabled and not already tracking it arms
`warningAt = now + (timeout - warningLead)` and `expireAt = now + timeout`,
for every configuration (including `warningLead >= timeout` and non-positive
durations). -/
theorem start_arms_deadlines (t : ActivityTracker) (now : Int)
    (he : t.enabled = true) (hnt : t.isTracking = false) :
    startTracking t now =
      ({ t with
          isTracking := true
          lastActivity := now
          warningDeadline := some (now + (t.timeout - t.warningTime))
          timerDeadline := some (now + t.timeout) }, [Evt.trackingStarted]) := by
  simp [startTracking, resetTimer, he, hnt]

/-- Witness for the C3 amended theorem, at the invalid configuration itself. -/
theorem start_arms_deadlines_witness :
    (mkTracker badOpts 0).enabled = true ∧
    (mkTracker badOpts 0).isTracking = false ∧
    startTracking (mkTracker badOpts 0) 0 =
      ({ mkTracker badOpts 0 with
          isTracking := true
          lastActivity := 0
          warningDeadline := some ((0 : Int) + (5000 - 10000))
          timerDeadline := some ((0 : Int) + 5000) }, [Evt.trackingStarted]) :=
  ⟨rfl, rfl, start_arms_deadlines (mkTracker badOpts 0) 0 rfl rfl⟩

/-! ## C4: cooldown enforcement -/

/-- C4 counterexample: after five consecutive failed (invalid-credential)
unlock attempts, the sixth attempt with the correct credential succeeds
immediately instead of returning `CooldownActive` — the code keeps no
failure counter and has no cooldown at all.  (The third conjunct shows the
five prior attempts really were invalid-credential failures.) -/
theorem no_cooldown_counterexample :
    ((unlockSession sampleDom
      ((unlockSession sampleDom
        ((unlockSession sampleDom
          ((unlockSession sampleDom
            ((unlockSession sampleDom
              ((unlockSession sampleDom lockedSM (some wrongCred)).2.1)
              (some wrongCred)).2.1)
            (some wrongCred)).2.1)
          (some wrongCred)).2.1)
        (some wrongCred)).2.1)
      (some goodCred)).2.2.2 = true ∧
     (unlockSession sampleDom lockedSM (some goodCred)).2.1.isLocked = false ∧
     (unlockSession sampleDom lockedSM (some wrongCred)).2.2.2 = false) := by
  decide

/-- C4 amended: the code implements no cooldown: failed attempts leave the
session state untouched, so after any number `n` of consecutive
invalid-credential failures an attempt with a valid credential still
succeeds immediately and unlocks the session. -/
theorem no_cooldown_correct_cred_succeeds (d : Dom) (sm : SessionManager)
    (wrong good : Option Cred) (n : Nat)
    (hl : sm.isLocked = true)
    (hw : validateUnlock sm wrong = false)
    (hg : validateUnlock sm good = true) :
    (unlockSession d (Nat.iterate (fun s => (unlockSession d s wrong).2.1) n sm) good).2.2.2
        = true ∧
    (unlockSession d (Nat.iterate (fun s => (unlockSession d s wrong).2.1) n sm) good).2.1.isLocked
        = false := by
  have hfix : (fun s => (unlockSession d s wrong).2.1) sm = sm := by
    simp [unlockSession_invalid d sm wrong hl hw]
  rw [Function.iterate_fixed hfix n]
  exact ⟨(unlockSession_valid_unlocks d sm good hl hg).1,
         (unlockSession_valid_unlocks d sm good hl hg).2.1⟩

/-- Witness for the C4 amended theorem at `n = 5` on the sample locked
password session. -/
theorem no_cooldown_correct_cred_succeeds_witness :
    lockedSM.isLocked = true ∧
    validateUnlock lockedSM (some wrongCred) = false ∧
    validateUnlock lockedSM (some goodCred) = true ∧
    (unlockSession sampleDom
        (Nat.iterate (fun s => (unlockSession sampleDom s (some wrongCred)).2.1) 5 lockedSM)
        (some goodCred)).2.2.2 = true :=
  ⟨rfl, by decide, by decide,
   (no_cooldown_correct_cred_succeeds sampleDom lockedSM (some wrongCred) (some goodCred) 5
      rfl (by decide) (by decide)).1⟩

/-! ## C8: sensitivity filter -/

/-- C8 counterexample: the claim says media playback is enabled only at High
sensitivity (`specEnabled` is the claim's table, under which
`specEnabled low mediaPlayback = false`), but `setupRendererListeners` wires
the audio-monitoring pulse source unconditionally, so at Low sensitivity
media playback still reaches `handleActivity` — which itself never consults
the sensitivity — and produces a pulse. -/
theorem sensitivity_filter_counterexample :
    specEnabled Sensitivity.low EventKind.mediaPlayback = false ∧
    PulseSource.audioPlayback ∈ rendererPulseSources Sensitivity.low ∧
    (handleActivity trackerLow 5000).2 = [Evt.activityDetected] := by
  decide

/-- C8 amended: the DOM interaction events are filtered by sensitivity
exactly as the code's `getActivityEvents` table (low: mousedown, keydown,
touchstart; normal adds mousemove and scroll; high adds mouseup, keyup,
wheel, touchend and touchmove), but the media-playback, focus-change and
visibility-change pulse sources are registered at every sensitivity. -/
theorem sensitivity_filter_amended :
    getActivityEvents Sensitivity.low = ["mousedown", "keydown", "touchstart"] ∧
    getActivityEvents Sensitivity.normal =
      ["mousedown", "mousemove", "keydown", "scroll", "touchstart"] ∧
    getActivityEvents Sensitivity.high =
      ["mousedown", "mousemove", "keydown", "scroll", "touchstart",
       "mouseup", "keyup", "wheel", "touchend", "touchmove"] ∧
    (∀ s : Sensitivity,
      PulseSource.audioPlayback ∈ rendererPulseSources s ∧
      PulseSource.visibilityVisible ∈ rendererPulseSources s ∧
      PulseSource.focusGain ∈ rendererPulseSources s) := by
  refine ⟨rfl, rfl, rfl, fun s => ?_⟩
  cases s <;> exact ⟨by decide, by decide, by decide⟩

/-! ## C6: timer terminal after expiry -/

/-- C6: inside an enabled `AFKGuard`, once the inactivity deadline fires and
`inactivity-timeout` is emitted, the event forwarding locks the session and
stops the tracker, so both timer slots are cleared and no longer armed — and
a subsequent activity pulse alone is a no-op (it re-arms nothing and emits
nothing) until `startTracking` runs again. -/
theorem timeout_terminal (g : AFKGuard) (now now' : Int)
    (he : g.enabled = true) (hu : g.session.isLocked = false)
    (ht : g.tracker.isTracking = true) :
    Evt.inactivityTimeout ∈ (guardTimeoutFire g now).2 ∧
    (guardTimeoutFire g now).1.tracker.timerDeadline = none ∧
    (guardTimeoutFire g now).1.tracker.warningDeadline = none ∧
    (guardTimeoutFire g now).1.tracker.isTracking = false ∧
    guardPulse (guardTimeoutFire g now).1 now' = ((guardTimeoutFire g now).1, []) := by
  simp [guardTimeoutFire, fireTimeout, lockSession, clearMemoryCache, stopTracking,
        guardPulse, handleActivity, he, hu, ht]

/-- Witness for C6: the running sample guard, with the deadline firing at
600000 and a pulse attempted at 600100. -/
theorem timeout_terminal_witness :
    runningGuard.enabled = true ∧
    runningGuard.session.isLocked = false ∧
    runningGuard.tracker.isTracking = true ∧
    guardPulse (guardTimeoutFire runningGuard 600000).1 600100 =
      ((guardTimeoutFire runningGuard 600000).1, []) :=
  ⟨rfl, rfl, rfl, (timeout_terminal runningGuard 600000 600100 rfl rfl rfl).2.2.2.2⟩

/-! ## C10: stop() may leave the session locked -/

/-- C10: `AFKGuard.stop` on a locked session calls `unlockSession` with no
credentials; with the `password` unlock method the null credentials are
rejected, so the session state — including the lock flag and the unrestored
vault — is left exactly as it was while the tracker is stopped; with the
`click` method the same call always unlocks. -/
theorem stop_may_leave_locked (g : AFKGuard) (now : Int)
    (hl : g.session.isLocked = true) :
    (g.session.unlockMethod = UnlockMethod.password →
      (guardStop g now).1.session = g.session ∧
      (guardStop g now).1.tracker.isTracking = false) ∧
    (g.session.unlockMethod = UnlockMethod.click →
      (guardStop g now).1.session.isLocked = false) := by
  constructor
  · intro hm
    have hv : validateUnlock g.session none = false := by simp [validateUnlock, hm]
    have hinv := unlockSession_invalid g.dom g.session none hl hv
    simp [guardStop, guardUnlock, hl, hinv, stopTracking_not_tracking]
  · intro hm
    have hv : validateUnlock g.session none = true := by simp [validateUnlock, hm]
    have h3 := unlockSession_valid_unlocks g.dom g.session none hl hv
    by_cases he : g.enabled <;>
      simp [guardStop, guardUnlock, startTracking, hl, h3.2.2, h3.2.1, he]

/-- Witness for C10: stopping the sample locked password guard leaves it
locked, while stopping the locked click guard unlocks it. -/
theorem stop_may_leave_locked_witness :
    lockedGuardPw.session.isLocked = true ∧
    lockedGuardPw.session.unlockMethod = UnlockMethod.password ∧
    (guardStop lockedGuardPw 0).1.session = lockedGuardPw.session ∧
    lockedGuardClick.session.unlockMethod = UnlockMethod.click ∧
    (guardStop lockedGuardClick 0).1.session.isLocked = false :=
  ⟨rfl, rfl, ((stop_may_leave_locked lockedGuardPw 0 rfl).1 rfl).1, rfl,
   (stop_may_leave_locked lockedGuardClick 0 rfl).2 rfl⟩

/-! ## C1: vault emptiness invariant -/

theorem blankFold_cons (d : Dom) (sm : SessionManager) (i : Nat) (ms : List Nat) :
    blankFold d sm (i :: ms) = blankFold (blankOne d sm i).1 (blankOne d sm i).2 ms := rfl

theorem blankFold_hasWindow (ms : List Nat) :
    ∀ (d : Dom) (sm : SessionManager), (blankFold d sm ms).1.hasWindow = d.hasWindow := by
  induction ms with
  | nil => intro d sm; rfl
  | cons i ms ih =>
      intro d sm
      rw [blankFold_cons, ih]
      simp [blankOne, Dom.setElem]

theorem blankFold_isLocked (ms : List Nat) :
    ∀ (d : Dom) (sm : SessionManager), (blankFold d sm ms).2.isLocked = sm.isLocked := by
  induction ms with
  | nil => intro d sm; rfl
  | cons i ms ih =>
      intro d sm
      rw [blankFold_cons, ih]
      simp [blankOne]

theorem blankSensitiveData_noWindow (d : Dom) (sm : SessionManager)
    (hw : d.hasWindow = false) : blankSensitiveData d sm = (d, sm) := by
  simp [blankSensitiveData, hw]

theorem blankSensitiveData_hasWindow (d : Dom) (sm : SessionManager) :
    (blankSensitiveData d sm).1.hasWindow = d.hasWindow := by
  by_cases hw : d.hasWindow = false <;> simp [blankSensitiveData, hw, blankFold_hasWindow]

theorem blankSensitiveData_isLocked (d : Dom) (sm : SessionManager) :
    (blankSensitiveData d sm).2.isLocked = sm.isLocked := by
  by_cases hw : d.hasWindow = false <;> simp [blankSensitiveData, hw, blankFold_isLocked]

theorem showLockScreen_hasWindow (d : Dom) : (showLockScreen d).hasWindow = d.hasWindow := by
  by_cases h : d.hasWindow <;> simp [showLockScreen, h]

theorem smInv_applySMOp (p : Dom × SessionManager) (op : SMOp) (h : smInv p) :
    smInv (applySMOp p op) := by
  obtain ⟨h1, h2⟩ := h
  cases op with
  | lock now =>
      by_cases hL : p.2.isLocked
      · have : applySMOp p (SMOp.lock now) = p := by
          simp [applySMOp, lockSession, hL]
        rw [this]; exact ⟨h1, h2⟩
      · have hstep : applySMOp p (SMOp.lock now) =
            (showLockScreen
               (blankSensitiveData p.1 { p.2 with isLocked := true, lockTime := some now }).1,
             (clearMemoryCache
               (blankSensitiveData p.1 { p.2 with isLocked := true, lockTime := some now }).2).1) := by
          simp [applySMOp, lockSession, hL]
        rw [hstep]
        constructor
        · intro hf
          simp [clearMemoryCache, blankSensitiveData_isLocked] at hf
        · intro hf
          rw [showLockScreen_hasWindow, blankSensitiveData_hasWindow] at hf
          rw [blankSensitiveData_noWindow _ _ hf]
          simpa [clearMemoryCache] using h2 hf
  | unlock cred =>
      by_cases hL : p.2.isLocked = false
      · have : applySMOp p (SMOp.unlock cred) = p := by
          simp [applySMOp, unlockSession, hL]
        rw [this]; exact ⟨h1, h2⟩
      · have hL' : p.2.isLocked = true := by simpa using hL
        by_cases hv : validateUnlock p.2 cred = false
        · have : applySMOp p (SMOp.unlock cred) = p := by
            simp [applySMOp, unlockSession_invalid p.1 p.2 cred hL' hv]
          rw [this]; exact ⟨h1, h2⟩
        · have hv' : validateUnlock p.2 cred = true := by simpa using hv
          by_cases hw : p.1.hasWindow = false
          · have hstep : applySMOp p (SMOp.unlock cred) =
                (hideLockScreen p.1, { p.2 with isLocked := false }) := by
              simp [applySMOp, unlockSession, hL', hv', restoreSensitiveData, hw]
            rw [hstep]
            have hb : p.2.backup = [] := h2 hw
            exact ⟨fun _ => by simpa using hb, fun _ => by simpa using hb⟩
          · have hw' : p.1.hasWindow = true := by simpa using hw
            have hstep : (applySMOp p (SMOp.unlock cred)).2.backup = [] := by
              simp [applySMOp, unlockSession, hL', hv', restoreSensitiveData, hw']
            exact ⟨fun _ => hstep, fun _ => hstep⟩

theorem smInv_runSMOps (ops : List SMOp) :
    ∀ p : Dom × SessionManager, smInv p → smInv (runSMOps p ops) := by
  induction ops with
  | nil => intro p h; exact h
  | cons op ops ih => intro p h; exact ih _ (smInv_applySMOp p op h)

/-- C1: for every sequence of `lockSession` / `unlockSession` operations on a
freshly constructed `SessionManager` (any unlock method, stored password and
initial document), whenever the resulting state is unlocked the vault
(`sensitiveDataBackup`) is empty. -/
theorem vault_emptiness_invariant (d0 : Dom) (m : UnlockMethod) (pw : String)
    (ops : List SMOp)
    (h : (runSMOps (d0, initSessionManager m pw) ops).2.isLocked = false) :
    (runSMOps (d0, initSessionManager m pw) ops).2.backup = [] :=
  (smInv_runSMOps ops (d0, initSessionManager m pw) ⟨fun _ => rfl, fun _ => rfl⟩).1 h

/-- Witness for C1: a lock followed by a click unlock on the sample document
ends unlocked with an empty vault. -/
theorem vault_emptiness_invariant_witness :
    (runSMOps (sampleDom, initSessionManager UnlockMethod.click "default")
        [SMOp.lock 0, SMOp.unlock none]).2.isLocked = false ∧
    (runSMOps (sampleDom, initSessionManager UnlockMethod.click "default")
        [SMOp.lock 0, SMOp.unlock none]).2.backup = [] :=
  ⟨by decide,
   vault_emptiness_invariant sampleDom UnlockMethod.click "default"
     [SMOp.lock 0, SMOp.unlock none] (by decide)⟩

/-! ## C2: restore round-trip — supporting lemmas -/

theorem mapSet_fresh (k : BackupKey) (v : Snapshot) :
    ∀ (m : List (BackupKey × Snapshot)), (∀ p ∈ m, p.1 ≠ k) →
      mapSet m k v = m ++ [(k, v)] := by
  intro m
  induction m with
  | nil => intro _; rfl
  | cons a m ih =>
      intro h
      obtain ⟨k', v'⟩ := a
      have hk : k' ≠ k := h (k', v') (by simp)
      simp only [mapSet, if_neg hk, List.cons_append]
      rw [ih (fun p hp => h p (by simp [hp]))]

theorem blankEntries_congr : ∀ (ms : List Nat) (d d' : Dom) (k : Nat),
    (∀ i ∈ ms, getE d'.elems i = getE d.elems i) →
    blankEntries d' k ms = blankEntries d k ms := by
  intro ms
  induction ms with
  | nil => intro d d' k _; rfl
  | cons i ms ih =>
      intro d d' k h
      simp only [blankEntries]
      rw [h i (by simp), ih d d' (k + 1) (fun j hj => h j (by simp [hj]))]

theorem blankOne_fst (d : Dom) (sm : SessionManager) (i : Nat) :
    (blankOne d sm i).1 = d.setElem i (maskElem (getE d.elems i)) := rfl

theorem blankOne_snd_backup (d : Dom) (sm : SessionManager) (i : Nat) :
    (blankOne d sm i).2.backup =
      mapSet sm.backup (mkKey (getE d.elems i) sm.idCtr) (mkSnap i (getE d.elems i)) := rfl

theorem blankOne_snd_idCtr (d : Dom) (sm : SessionManager) (i : Nat) :
    (blankOne d sm i).2.idCtr = sm.idCtr + 1 := rfl

theorem blankFold_length (ms : List Nat) :
    ∀ (d : Dom) (sm : SessionManager), (blankFold d sm ms).1.elems.length = d.elems.length := by
  induction ms with
  | nil => intro d sm; rfl
  | cons i ms ih =>
      intro d sm
      rw [blankFold_cons, ih]
      simp [blankOne, Dom.setElem]

theorem matchedList_lt (d : Dom) : ∀ i ∈ matchedList d, i < d.elems.length := by
  intro i hi
  simp only [matchedList, List.mem_flatMap] at hi
  obtain ⟨s, _, hs⟩ := hi
  simp only [selMatches, List.mem_filter, List.mem_range] at hs
  exact hs.1

theorem blankFold_backup : ∀ (ms : List Nat) (d : Dom) (sm : SessionManager),
    ms.Nodup → (∀ i ∈ ms, i < d.elems.length) →
    (∀ p ∈ sm.backup, p.1.stamp < sm.idCtr) →
    (blankFold d sm ms).2.backup = sm.backup ++ blankEntries d sm.idCtr ms := by
  intro ms
  induction ms with
  | nil => intro d sm _ _ _; simp [blankFold, blankEntries]
  | cons i ms ih =>
      intro d sm hnd hlt hst
      rw [blankFold_cons]
      have hfresh : ∀ p ∈ sm.backup, p.1 ≠ mkKey (getE d.elems i) sm.idCtr := by
        intro p hp hcontra
        have hlts := hst p hp
        rw [hcontra] at hlts
        simp [mkKey] at hlts
      have hb1 : (blankOne d sm i).2.backup =
          sm.backup ++ [(mkKey (getE d.elems i) sm.idCtr, mkSnap i (getE d.elems i))] := by
        rw [blankOne_snd_backup, mapSet_fresh _ _ _ hfresh]
      have hih := ih (blankOne d sm i).1 (blankOne d sm i).2
        (List.Nodup.of_cons hnd)
        (by
          intro j hj
          have hj' := hlt j (by simp [hj])
          simpa [blankOne_fst, Dom.setElem] using hj')
        (by
          intro p hp
          rw [hb1] at hp
          rw [blankOne_snd_idCtr]
          rcases List.mem_append.mp hp with h' | h'
          · exact Nat.lt_succ_of_lt (hst p h')
          · simp only [List.mem_singleton] at h'
            rw [h']
            simp [mkKey])
      rw [hih, hb1, blankOne_snd_idCtr]
      have hcongr : blankEntries (blankOne d sm i).1 (sm.idCtr + 1) ms
          = blankEntries d (sm.idCtr + 1) ms := by
        apply blankEntries_congr
        intro j hj
        have hij : i ≠ j := by
          intro hh
          exact (List.nodup_cons.mp hnd).1 (hh ▸ hj)
        rw [blankOne_fst]
        exact getE_set_ne d.elems i j _ hij
      rw [hcongr]
      simp [blankEntries, List.append_assoc]

theorem blankFold_getE : ∀ (ms : List Nat) (d : Dom) (sm : SessionManager),
    ms.Nodup → (∀ i ∈ ms, i < d.elems.length) →
    ∀ j, getE (blankFold d sm ms).1.elems j =
      if j ∈ ms then maskElem (getE d.elems j) else getE d.elems j := by
  intro ms
  induction ms with
  | nil => intro d sm _ _ j; simp [blankFold]
  | cons i ms ih =>
      intro d sm hnd hlt j
      rw [blankFold_cons]
      have hih := ih (blankOne d sm i).1 (blankOne d sm i).2 (List.Nodup.of_cons hnd)
        (by
          intro k hk
          have hk' := hlt k (by simp [hk])
          simpa [blankOne_fst, Dom.setElem] using hk')
        j
      rw [hih]
      by_cases hji : j = i
      · subst hji
        have hnotin : j ∉ ms := (List.nodup_cons.mp hnd).1
        rw [if_neg hnotin, if_pos (by simp)]
        rw [blankOne_fst]
        show getE (d.elems.set j (maskElem (getE d.elems j))) j = maskElem (getE d.elems j)
        exact getE_set_self d.elems j _ (hlt j (by simp))
      · have hne : getE (blankOne d sm i).1.elems j = getE d.elems j := by
          rw [blankOne_fst]
          exact getE_set_ne d.elems i j _ (fun hh => hji hh.symm)
        rw [hne]
        by_cases hjm : j ∈ ms
        · rw [if_pos hjm, if_pos (by simp [hjm])]
        · rw [if_neg hjm, if_neg (by simp [hji, hjm])]

theorem restoreOne_mask (dm : Dom) (i : Nat) (e0 : Element)
    (he : getE dm.elems i = maskElem e0) (ha : e0.attached = true)
    (hi : i < dm.elems.length) :
    (∀ j, j ≠ i → getE (restoreOne dm (mkSnap i e0)).elems j = getE dm.elems j) ∧
    contentOf (getE (restoreOne dm (mkSnap i e0)).elems i) = contentOf e0 ∧
    (restoreOne dm (mkSnap i e0)).elems.length = dm.elems.length := by
  have hatt : (getE dm.elems i).attached = true := by
    rw [he, maskElem_attached]; exact ha
  by_cases ht : e0.tag = "INPUT"
  · have htag : (getE dm.elems i).tag = "INPUT" := by
      rw [he, maskElem_tag]; exact ht
    have hres : restoreOne dm (mkSnap i e0) =
        dm.setElem i
          { getE dm.elems i with value := jsValue e0, blankedClass := false } := by
      simp [restoreOne, mkSnap, hatt, htag]
    refine ⟨?_, ?_, ?_⟩
    · intro j hj
      rw [hres]
      show getE (dm.elems.set i _) j = getE dm.elems j
      exact getE_set_ne dm.elems i j _ (fun hh => hj hh.symm)
    · rw [hres]
      show contentOf (getE (dm.elems.set i _) i) = contentOf e0
      rw [getE_set_self dm.elems i _ hi, he]
      simp [contentOf, maskElem, ht, jsValue]
    · rw [hres]
      simp [Dom.setElem]
  · have htag : ¬ (getE dm.elems i).tag = "INPUT" := by
      rw [he, maskElem_tag]; exact ht
    have hres : restoreOne dm (mkSnap i e0) =
        dm.setElem i
          { getE dm.elems i with innerHTML := e0.innerHTML,
                                 textContent := e0.textContent, blankedClass := false } := by
      simp [restoreOne, mkSnap, hatt, htag]
    refine ⟨?_, ?_, ?_⟩
    · intro j hj
      rw [hres]
      show getE (dm.elems.set i _) j = getE dm.elems j
      exact getE_set_ne dm.elems i j _ (fun hh => hj hh.symm)
    · rw [hres]
      show contentOf (getE (dm.elems.set i _) i) = contentOf e0
      rw [getE_set_self dm.elems i _ hi, he]
      simp [contentOf, maskElem, ht]
    · rw [hres]
      simp [Dom.setElem]

theorem restore_entries : ∀ (ms : List Nat) (d0 dm : Dom) (k : Nat),
    ms.Nodup →
    (∀ i ∈ ms, i < d0.elems.length) →
    (∀ i ∈ ms, (getE d0.elems i).attached = true) →
    dm.elems.length = d0.elems.length →
    (∀ j ∈ ms, getE dm.elems j = maskElem (getE d0.elems j)) →
    ∀ j, contentOf (getE (restoreFold dm (blankEntries d0 k ms)).elems j) =
      if j ∈ ms then contentOf (getE d0.elems j) else contentOf (getE dm.elems j) := by
  intro ms
  induction ms with
  | nil => intro d0 dm k _ _ _ _ _ j; simp [blankEntries, restoreFold]
  | cons i ms ih =>
      intro d0 dm k hnd hlt hat hlen hmask j
      have hstep : restoreFold dm (blankEntries d0 k (i :: ms)) =
          restoreFold (restoreOne dm (mkSnap i (getE d0.elems i)))
            (blankEntries d0 (k + 1) ms) := rfl
      rw [hstep]
      have hi : i < dm.elems.length := by
        rw [hlen]; exact hlt i (by simp)
      have hmaski : getE dm.elems i = maskElem (getE d0.elems i) := hmask i (by simp)
      have hro := restoreOne_mask dm i (getE d0.elems i) hmaski (hat i (by simp)) hi
      have hnotin : i ∉ ms := (List.nodup_cons.mp hnd).1
      have hih := ih d0 (restoreOne dm (mkSnap i (getE d0.elems i))) (k + 1)
        (List.Nodup.of_cons hnd)
        (fun j' hj' => hlt j' (by simp [hj']))
        (fun j' hj' => hat j' (by simp [hj']))
        (by rw [hro.2.2, hlen])
        (by
          intro j' hj'
          have hji : j' ≠ i := fun hh => hnotin (hh ▸ hj')
          rw [hro.1 j' hji]
          exact hmask j' (by simp [hj']))
      rw [hih j]
      by_cases hji : j = i
      · subst hji
        rw [if_neg hnotin, if_pos (by simp)]
        exact hro.2.1
      · by_cases hjm : j ∈ ms
        · rw [if_pos hjm, if_pos (by simp [hjm])]
        · rw [if_neg hjm, if_neg (by simp [hji, hjm]), hro.1 j hji]

/-- C2 counterexample: the round trip as the claim states it fails on an
element matched by two sensitive selectors.  `dupMatchDom` holds a password
input with class `api-key` (no accessor mutation: the element stays
attached, the vault starts empty), yet after `blankSensitiveData` followed
by `restoreSensitiveData` its value is the masked placeholder, not the
original `"hunter2"`: the single blank call processes the element once per
matching selector (`matchedList` lists it twice), the second pass snapshots
the already-masked value under a fresh `generateElementId` key which
`Map.set` appends, and restore replays the entries in insertion order,
writing the mask last. -/
theorem restore_round_trip_counterexample :
    matchedList dupMatchDom = [0, 0] ∧
    (getE dupMatchDom.elems 0).value = "hunter2" ∧
    (getE (restoreSensitiveData
        (blankSensitiveData dupMatchDom (initSessionManager UnlockMethod.click "default")).1
        (blankSensitiveData dupMatchDom
          (initSessionManager UnlockMethod.click "default")).2).1.elems 0).value
      = maskText ∧
    maskText ≠ "hunter2" := by
  have h1 : blankSensitiveData dupMatchDom (initSessionManager UnlockMethod.click "default") =
      ({ elems := [{ tag := "INPUT", className := "api-key", value := maskText,
                     innerHTML := "", textContent := "", attached := true,
                     blankedClass := true, sels := [1, 5] }],
         hasWindow := true, bodyLocked := true, lockScreenVisible := false },
       { unlockMethod := UnlockMethod.click, storedPassword := "default",
         isLocked := false, lockTime := none,
         backup := [({ tag := "INPUT", className := "api-key", stamp := 0 },
                     { elemIdx := 0, originalContent := "", originalValue := "hunter2",
                       originalText := "" }),
                    ({ tag := "INPUT", className := "api-key", stamp := 1 },
                     { elemIdx := 0, originalContent := "", originalValue := maskText,
                       originalText := "" })],
         memCache := [], idCtr := 2 }) := rfl
  have h2 : restoreSensitiveData
      (blankSensitiveData dupMatchDom (initSessionManager UnlockMethod.click "default")).1
      (blankSensitiveData dupMatchDom (initSessionManager UnlockMethod.click "default")).2 =
      ({ elems := [{ tag := "INPUT", className := "api-key", value := maskText,
                     innerHTML := "", textContent := "", attached := true,
                     blankedClass := false, sels := [1, 5] }],
         hasWindow := true, bodyLocked := false, lockScreenVisible := false },
       { unlockMethod := UnlockMethod.click, storedPassword := "default",
         isLocked := false, lockTime := none, backup := [],
         memCache := [], idCtr := 2 }) := by
    rw [h1]; rfl
  refine ⟨rfl, rfl, ?_, by decide⟩
  rw [h2]; rfl

/-- C2 amended: blanking and then restoring a document whose vault is empty,
whose matched protected regions are pairwise distinct — each element is
matched by only one sensitive selector pass, which is what fails for the
doubly-matched element of `restore_round_trip_counterexample` — and whose
matched elements are attached (i.e. no accessor mutation happened in
between) leaves the user-visible content (`value`, `innerHTML`,
`textContent`) of every element identical to its pre-blank value, and the
vault empty. -/
theorem restore_round_trip (d : Dom) (sm : SessionManager)
    (hw : d.hasWindow = true) (hb : sm.backup = [])
    (hnd : (matchedList d).Nodup)
    (hat : ∀ i ∈ matchedList d, (getE d.elems i).attached = true) :
    (∀ j, contentOf (getE (restoreSensitiveData (blankSensitiveData d sm).1
        (blankSensitiveData d sm).2).1.elems j) = contentOf (getE d.elems j)) ∧
    (restoreSensitiveData (blankSensitiveData d sm).1
        (blankSensitiveData d sm).2).2.backup = [] := by
  have hw' : ¬ d.hasWindow = false := by simp [hw]
  have hblank1 : (blankSensitiveData d sm).1 =
      { (blankFold d sm (matchedList d)).1 with bodyLocked := true } := by
    simp [blankSensitiveData, hw']
  have hblank2 : (blankSensitiveData d sm).2 = (blankFold d sm (matchedList d)).2 := by
    simp [blankSensitiveData, hw']
  have hdmwin : ((blankSensitiveData d sm).1).hasWindow = true := by
    rw [hblank1]
    show (blankFold d sm (matchedList d)).1.hasWindow = true
    rw [blankFold_hasWindow]
    exact hw
  have hdmwin' : ¬ ((blankSensitiveData d sm).1).hasWindow = false := by simp [hdmwin]
  have hrest1 : (restoreSensitiveData (blankSensitiveData d sm).1
      (blankSensitiveData d sm).2).1 =
      { restoreFold (blankSensitiveData d sm).1 (blankSensitiveData d sm).2.backup with
          bodyLocked := false } := by
    simp [restoreSensitiveData, hdmwin']
  have hrest2 : (restoreSensitiveData (blankSensitiveData d sm).1
      (blankSensitiveData d sm).2).2.backup = [] := by
    simp [restoreSensitiveData, hdmwin']
  have hstamps : ∀ p ∈ sm.backup, p.1.stamp < sm.idCtr := by
    rw [hb]; intro p hp; simp at hp
  have hbackup : (blankSensitiveData d sm).2.backup =
      blankEntries d sm.idCtr (matchedList d) := by
    rw [hblank2, blankFold_backup (matchedList d) d sm hnd (matchedList_lt d) hstamps, hb]
    simp
  have hlen : ((blankSensitiveData d sm).1).elems.length = d.elems.length := by
    rw [hblank1]
    show (blankFold d sm (matchedList d)).1.elems.length = d.elems.length
    exact blankFold_length (matchedList d) d sm
  have hmask : ∀ j ∈ matchedList d,
      getE ((blankSensitiveData d sm).1).elems j = maskElem (getE d.elems j) := by
    intro j hj
    rw [hblank1]
    show getE (blankFold d sm (matchedList d)).1.elems j = maskElem (getE d.elems j)
    rw [blankFold_getE (matchedList d) d sm hnd (matchedList_lt d) j, if_pos hj]
  refine ⟨?_, hrest2⟩
  intro j
  rw [hrest1]
  show contentOf (getE (restoreFold (blankSensitiveData d sm).1
      (blankSensitiveData d sm).2.backup).elems j) = contentOf (getE d.elems j)
  rw [hbackup]
  rw [restore_entries (matchedList d) d (blankSensitiveData d sm).1 sm.idCtr hnd
      (matchedList_lt d) hat hlen hmask j]
  by_cases hjm : j ∈ matchedList d
  · rw [if_pos hjm]
  · rw [if_neg hjm]
    have huntouched : getE ((blankSensitiveData d sm).1).elems j = getE d.elems j := by
      rw [hblank1]
      show getE (blankFold d sm (matchedList d)).1.elems j = getE d.elems j
      rw [blankFold_getE (matchedList d) d sm hnd (matchedList_lt d) j, if_neg hjm]
    rw [huntouched]

/-- Witness for C2: the round trip on the sample document restores the
sample element's content. -/
theorem restore_round_trip_witness :
    sampleDom.hasWindow = true ∧
    (initSessionManager UnlockMethod.click "default").backup = [] ∧
    (matchedList sampleDom).Nodup ∧
    contentOf (getE (restoreSensitiveData
        (blankSensitiveData sampleDom (initSessionManager UnlockMethod.click "default")).1
        (blankSensitiveData sampleDom
          (initSessionManager UnlockMethod.click "default")).2).1.elems 0) =
      contentOf (getE sampleDom.elems 0) :=
  ⟨rfl, rfl, by decide,
   (restore_round_trip sampleDom (initSessionManager UnlockMethod.click "default")
      rfl rfl (by decide) (by decide)).1 0⟩

/-! ## C9: double blank destroys the capture -/

set_option maxHeartbeats 1600000 in
/-- C9: for a protected region with arbitrary original content `c`, blanking
twice and then restoring leaves the region showing the masked placeholder
markup, not `c`: the second `blankSensitiveData` call snapshots the
already-masked content under a fresh backup key (the timestamp-and-random
suffix of `generateElementId` never collides with the first key), and
`restoreSensitiveData` replays entries in insertion order, writing the
placeholder last.  The vault is still cleared. -/
theorem double_blank_destroys_capture (c : String) (hc : c ≠ maskSpan) :
    (getE (restoreSensitiveData
        (blankSensitiveData (blankSensitiveData (doubleBlankDom c) doubleBlankSM).1
          (blankSensitiveData (doubleBlankDom c) doubleBlankSM).2).1
        (blankSensitiveData (blankSensitiveData (doubleBlankDom c) doubleBlankSM).1
          (blankSensitiveData (doubleBlankDom c) doubleBlankSM).2).2).1.elems 0).innerHTML
      = maskSpan ∧
    (getE (restoreSensitiveData
        (blankSensitiveData (blankSensitiveData (doubleBlankDom c) doubleBlankSM).1
          (blankSensitiveData (doubleBlankDom c) doubleBlankSM).2).1
        (blankSensitiveData (blankSensitiveData (doubleBlankDom c) doubleBlankSM).1
          (blankSensitiveData (doubleBlankDom c) doubleBlankSM).2).2).1.elems 0).innerHTML
      ≠ c ∧
    (restoreSensitiveData
        (blankSensitiveData (blankSensitiveData (doubleBlankDom c) doubleBlankSM).1
          (blankSensitiveData (doubleBlankDom c) doubleBlankSM).2).1
        (blankSensitiveData (blankSensitiveData (doubleBlankDom c) doubleBlankSM).1
          (blankSensitiveData (doubleBlankDom c) doubleBlankSM).2).2).2.backup = [] := by
  have h1 : blankSensitiveData (doubleBlankDom c) doubleBlankSM =
      ({ elems := [{ tag := "DIV", className := "api-key", value := "",
                     innerHTML := maskSpan, textContent := maskText, attached := true,
                     blankedClass := true, sels := [1] }],
         hasWindow := true, bodyLocked := true, lockScreenVisible := false },
       { unlockMethod := UnlockMethod.click, storedPassword := "default",
         isLocked := false, lockTime := none,
         backup := [({ tag := "DIV", className := "api-key", stamp := 0 },
                     { elemIdx := 0, originalContent := c, originalValue := "",
                       originalText := c })],
         memCache := [], idCtr := 1 }) := rfl
  have h2 : blankSensitiveData (blankSensitiveData (doubleBlankDom c) doubleBlankSM).1
      (blankSensitiveData (doubleBlankDom c) doubleBlankSM).2 =
      ({ elems := [{ tag := "DIV", className := "api-key", value := "",
                     innerHTML := maskSpan, textContent := maskText, attached := true,
                     blankedClass := true, sels := [1] }],
         hasWindow := true, bodyLocked := true, lockScreenVisible := false },
       { unlockMethod := UnlockMethod.click, storedPassword := "default",
         isLocked := false, lockTime := none,
         backup := [({ tag := "DIV", className := "api-key", stamp := 0 },
                     { elemIdx := 0, originalContent := c, originalValue := "",
                       originalText := c }),
                    ({ tag := "DIV", className := "api-key", stamp := 1 },
                     { elemIdx := 0, originalContent := maskSpan, originalValue := "",
                       originalText := maskText })],
         memCache := [], idCtr := 2 }) := by
    rw [h1]; rfl
  have h3 : restoreSensitiveData
      (blankSensitiveData (blankSensitiveData (doubleBlankDom c) doubleBlankSM).1
        (blankSensitiveData (doubleBlankDom c) doubleBlankSM).2).1
      (blankSensitiveData (blankSensitiveData (doubleBlankDom c) doubleBlankSM).1
        (blankSensitiveData (doubleBlankDom c) doubleBlankSM).2).2 =
      ({ elems := [{ tag := "DIV", className := "api-key", value := "",
                     innerHTML := maskSpan, textContent := maskText, attached := true,
                     blankedClass := false, sels := [1] }],
         hasWindow := true, bodyLocked := false, lockScreenVisible := false },
       { unlockMethod := UnlockMethod.click, storedPassword := "default",
         isLocked := false, lockTime := none, backup := [],
         memCache := [], idCtr := 2 }) := by
    rw [h2]; rfl
  have hmain : (getE (restoreSensitiveData
      (blankSensitiveData (blankSensitiveData (doubleBlankDom c) doubleBlankSM).1
        (blankSensitiveData (doubleBlankDom c) doubleBlankSM).2).1
      (blankSensitiveData (blankSensitiveData (doubleBlankDom c) doubleBlankSM).1
        (blankSensitiveData (doubleBlankDom c) doubleBlankSM).2).2).1.elems 0).innerHTML
      = maskSpan := by
    rw [h3]; rfl
  have hback : (restoreSensitiveData
      (blankSensitiveData (blankSensitiveData (doubleBlankDom c) doubleBlankSM).1
        (blankSensitiveData (doubleBlankDom c) doubleBlankSM).2).1
      (blankSensitiveData (blankSensitiveData (doubleBlankDom c) doubleBlankSM).1
        (blankSensitiveData (doubleBlankDom c) doubleBlankSM).2).2).2.backup = [] := by
    rw [h3]
  exact ⟨hmain, by rw [hmain]; exact fun h => hc h.symm, hback⟩

/-- Witness for C9 at the concrete content `"secret"`. -/
theorem double_blank_destroys_capture_witness :
    ("secret" : String) ≠ maskSpan ∧
    (getE (restoreSensitiveData
        (blankSensitiveData (blankSensitiveData (doubleBlankDom "secret") doubleBlankSM).1
          (blankSensitiveData (doubleBlankDom "secret") doubleBlankSM).2).1
        (blankSensitiveData (blankSensitiveData (doubleBlankDom "secret") doubleBlankSM).1
          (blankSensitiveData (doubleBlankDom "secret") doubleBlankSM).2).2).1.elems 0).innerHTML
      = maskSpan :=
  ⟨by decide, (double_blank_destroys_capture "secret" (by decide)).1⟩
